import Mathlib

/-!
Verification of the connector abstraction, policy pipeline, connector
registry, schema-search tool and credential lifecycle manager of the
opendb-mcp-server repository, as a shallow embedding in Lean 4.

Python strings are modelled as Lean `String` / `List Char`; `str.strip`
is modelled by `pyStrip` (dropping the four ASCII whitespace characters
recognised by `Char.isWhitespace`, which covers every whitespace that
occurs in SQL text), `str.upper` by `pyUpper`, and Python truthiness of
optional strings and optional non-negative integers by `truthyStr`,
`pyOrNat` and `pyOrOptNat`.  Asynchronous methods are modelled as pure
state-transition functions: external outcomes (did the backend open a
session, did the kdestroy subprocess succeed, ...) are explicit
parameters, and observable effects (how many backend sessions were
opened, how many acquisition commands ran) are explicit results.
-/

namespace OpenDB

/-! ### constants.py -/

/-- Default maximum rows returned from queries (constants.py). -/
def DEFAULT_MAX_ROWS : Nat := 1000

/-- Default query timeout in seconds (constants.py). -/
def DEFAULT_QUERY_TIMEOUT : Nat := 30

/-- Write operation keywords for read-only enforcement (constants.py). -/
def WRITE_KEYWORDS : List String :=
  ["INSERT", "UPDATE", "DELETE", "DROP", "CREATE", "ALTER",
   "TRUNCATE", "GRANT", "REVOKE", "MERGE", "UPSERT", "REPLACE"]

/-! ### Python string and truthiness helpers -/

/-- Python `str.upper`, character-wise upper-casing. -/
def pyUpper (s : List Char) : List Char := s.map Char.toUpper

/-- Remove trailing whitespace (the tail half of Python `str.strip`). -/
def stripEnd (s : List Char) : List Char :=
  (s.reverse.dropWhile Char.isWhitespace).reverse

/-- Python `str.strip`: remove leading and trailing whitespace. -/
def pyStrip (s : List Char) : List Char :=
  stripEnd (s.dropWhile Char.isWhitespace)

/-- The expression `sql.strip().upper()` used throughout base.py. -/
def normalizedSql (sql : String) : List Char := pyUpper (pyStrip sql.toList)

/-- Python truthiness of an `Optional[str]`: `None` and the empty string
are falsy, every other string is truthy. -/
def truthyStr : Option String → Bool
  | none => false
  | some s => decide (s ≠ ("":String))

/-- Python `v or d` for `v : Optional[int]` with non-negative values and
an integer default: `None` and `0` are falsy and select the default. -/
def pyOrNat (v : Option Nat) (d : Nat) : Nat :=
  match v with
  | none => d
  | some x => if x = 0 then d else x

/-- Python `v or d` for `v : Optional[int]` with an optional default
(used for the per-call timeout, whose connector default may be `None`). -/
def pyOrOptNat (v : Option Nat) (d : Option Nat) : Option Nat :=
  match v with
  | none => d
  | some x => if x = 0 then d else some x

/-! ### Data model (utils/formatters.py, connectors/base.py) -/

/-- A SQL cell value (Python `Any`, restricted to the shapes the claims
need to distinguish). -/
inductive SqlValue where
  | null
  | intVal (i : Int)
  | strVal (s : String)
deriving DecidableEq

/-- One result row: a dict from column name to value, in column order. -/
abbrev Row := List (String × SqlValue)

/-- QueryResult from utils/formatters.py: columns, rows, row_count,
truncated.  The claims only exercise the SELECT path, where `row_count`
is `len(rows)` and hence non-negative. -/
structure QueryResult where
  columns : List String
  rows : List Row
  row_count : Nat
  truncated : Bool
deriving DecidableEq

/-- ConnectorOptions from connectors/base.py. -/
structure ConnectorOptions where
  readonly : Bool
  max_rows : Nat
  query_timeout : Option Nat
  connection_timeout : Option Nat
deriving DecidableEq

/-- ExecuteOptions from connectors/base.py. -/
structure ExecuteOptions where
  params : Option (List SqlValue)
  max_rows : Option Nat
  timeout : Option Nat
deriving DecidableEq

/-- The state of a BaseConnector that `execute` reads: `_config.id`,
`_is_connected` and `_options`. -/
structure Connector where
  source_id : String
  connected : Bool
  options : ConnectorOptions
deriving DecidableEq

/-! ### BaseConnector policy pipeline (connectors/base.py) -/

/-- BaseConnector._is_write_query: upper-case the stripped statement and
test whether it starts with any keyword of WRITE_KEYWORDS. -/
def is_write_query (sql : String) : Bool :=
  WRITE_KEYWORDS.any (fun k => List.isPrefixOf k.toList (normalizedSql sql))

/-- The bounding-clause test of BaseConnector._wrap_with_limit: a
case-insensitive substring check for LIMIT, TOP or FETCH surrounded by
spaces in the normalized statement. -/
def hasBoundingClause (normalized : List Char) : Bool :=
  decide ((" LIMIT ").toList <:+: normalized) ||
  decide ((" TOP ").toList <:+: normalized) ||
  decide ((" FETCH ").toList <:+: normalized)

/-- BaseConnector._wrap_with_limit: return the statement unchanged when
it already carries a bounding clause or is not a SELECT, otherwise
append one LIMIT clause with the requested cap to the stripped
statement. -/
def wrap_with_limit (sql : String) (max_rows : Nat) : String :=
  let normalized := normalizedSql sql
  if hasBoundingClause normalized then sql
  else if !(List.isPrefixOf ("SELECT").toList normalized) then sql
  else ⟨pyStrip sql.toList⟩ ++ (" LIMIT ") ++ toString max_rows

/-- BaseConnector._format_rows: flag truncation when more rows than the
cap were observed, and in that case cut the row list down to the cap. -/
def format_rows (rows : List Row) (max_rows : Nat) : List Row × Bool :=
  let truncated := decide (max_rows < rows.length)
  (if truncated then rows.take max_rows else rows, truncated)

/-- Outcome of BaseConnector.execute.  `delegated` records the exact
call made to the dialect implementation `_execute_query` (statement,
parameters, resolved row cap and resolved timeout); the two error
constructors are raised before the dialect implementation runs, so a
non-`delegated` outcome means the backend was never contacted. -/
inductive ExecResult where
  | notConnected (source_id : String) (sql : String)
  | readOnlyViolation (source_id : String) (sql : String)
  | delegated (sql : String) (params : Option (List SqlValue))
      (max_rows : Nat) (timeout : Option Nat)
deriving DecidableEq

/-- BaseConnector.execute: reject when not connected, reject write
statements on read-only connectors, resolve the effective row cap and
timeout by Python truthiness, then delegate to the dialect. -/
def execute (c : Connector) (sql : String) (options : Option ExecuteOptions) :
    ExecResult :=
  if !c.connected then .notConnected c.source_id sql
  else if c.options.readonly && is_write_query sql then
    .readOnlyViolation c.source_id sql
  else
    let opts := options.getD ⟨none, none, none⟩
    let max_rows := pyOrNat opts.max_rows c.options.max_rows
    let timeout := pyOrOptNat opts.timeout c.options.query_timeout
    .delegated sql opts.params max_rows timeout

/-- The first whitespace-delimited token of the normalized statement.
This is the detection the specification describes; the source performs
a plain prefix test instead (see `is_write_query`). -/
def firstToken (sql : String) : List Char :=
  (normalizedSql sql).takeWhile (fun c => !c.isWhitespace)

/-- Claim-side predicate: the first token of the statement is itself one
of the write keywords. -/
def firstTokenIsWriteKeyword (sql : String) : Bool :=
  WRITE_KEYWORDS.any (fun k => firstToken sql == k.toList)

/-! ### SqliteConnector result assembly (connectors/sqlite.py) -/

/-- The SELECT branch of SqliteConnector._execute_query after the rows
have been fetched from the wrapped query: empty fetch gives an empty
result, otherwise `_format_rows` caps the rows while `row_count`
reports the number of fetched rows. -/
def sqlite_select_result (columns : List String) (fetched : List Row)
    (max_rows : Nat) : QueryResult :=
  if fetched.isEmpty then ⟨[], [], 0, false⟩
  else
    let p := format_rows fetched max_rows
    ⟨columns, p.1, fetched.length, p.2⟩

/-! ### ConnectorManager (connectors/__init__.py) -/

/-- The registry state: the insertion-ordered dict of connectors, keyed
by source id. -/
structure ConnectorManager where
  connectors : List (String × Connector)
deriving DecidableEq

/-- ConnectorManager.get: dict lookup by source id. -/
def ConnectorManager.get (m : ConnectorManager) (source_id : String) :
    Option Connector :=
  List.lookup source_id m.connectors

/-- ConnectorManager.get_default: the sole connector when exactly one is
configured, otherwise the connector literally named default. -/
def ConnectorManager.get_default (m : ConnectorManager) : Option Connector :=
  if m.connectors.length = 1 then m.connectors.head?.map Prod.snd
  else List.lookup ("default") m.connectors

/-- Outcome of ConnectorManager.resolve: the two ValueError shapes and
success. -/
inductive ResolveOutcome where
  | unknownSource
  | ambiguousSource
  | resolved (c : Connector)
deriving DecidableEq

/-- ConnectorManager.resolve: a truthy explicit id is looked up (raising
UnknownSource on a miss); otherwise fall back to get_default, raising
AmbiguousSource when there is none. -/
def ConnectorManager.resolve (m : ConnectorManager)
    (source_id : Option String) : ResolveOutcome :=
  if truthyStr source_id then
    match m.get (source_id.getD ("")) with
    | some c => .resolved c
    | none => .unknownSource
  else
    match m.get_default with
    | some c => .resolved c
    | none => .ambiguousSource

/-- ConnectorManager.connect_all, given the per-source connect outcome
(`true` = that connector connected without raising): every source is
attempted, failures are collected in order, and a RuntimeError is
raised only when the error list is non-empty and covers every
configured source. -/
def connect_all (attempts : List (String × Bool)) :
    List String × Bool :=
  let errors := (attempts.filter (fun p => !p.2)).map Prod.fst
  (errors, !errors.isEmpty && errors.length == attempts.length)

/-! ### search_objects tool (tools/search_objects.py) -/

/-- Schema object kinds (constants.py OBJECT_TYPES). -/
inductive ObjectType where
  | schema
  | table
  | column
  | index
  | procedure
deriving DecidableEq

/-- Response formats accepted by the tools. -/
inductive ResponseFormat where
  | markdown
  | json
deriving DecidableEq

/-- SearchObjectsInput from tools/search_objects.py. -/
structure SearchObjectsInput where
  source_id : Option String
  object_type : Option ObjectType
  schema : Option String
  table : Option String
  pattern : Option String
  response_format : ResponseFormat
deriving DecidableEq

/-- How far search_objects gets before it needs a backend: either it
returns a validation error up front, or it proceeds to resolve the
connector, connect and query (modelled as one opaque phase carrying the
requested source id). -/
inductive SearchPhase where
  | validationError (message : String)
  | resolveAndQuery (source_id : Option String)
deriving DecidableEq

/-- The control flow of search_objects up to the first backend-facing
step: a column search without a truthy table name fails validation
before the connector manager is consulted. -/
def search_objects (input : SearchObjectsInput) : SearchPhase :=
  if input.object_type = some ObjectType.column ∧ truthyStr input.table = false
  then .validationError ("Table name is required when searching for columns")
  else .resolveAndQuery input.source_id

/-! ### KerberosAuth (services/kerberos.py) -/

/-- The mutable state of KerberosAuth read and written by the lifecycle
operations: `_initialized`, `_ticket_expiry` (absolute seconds, `none`
when unknown) and whether a `_refresh_task` is pending. -/
structure KerberosState where
  initialized : Bool
  ticket_expiry : Option Int
  refresh_task : Bool
deriving DecidableEq

/-- Result of KerberosAuth.destroy: the state afterwards, how many times
the destruction command ran, and whether destroy itself raised. -/
structure DestroyResult where
  state : KerberosState
  kdestroy_calls : Nat
  raised : Bool
deriving DecidableEq

/-- KerberosAuth.destroy: cancel the pending refresh task, then run
kdestroy inside a try block; only on success are the initialized flag
and the expiry cleared, and a kdestroy failure is logged and swallowed
with the flags left as they were. -/
def destroy (s : KerberosState) (kdestroyOk : Bool) : DestroyResult :=
  let cancelled : KerberosState := ⟨s.initialized, s.ticket_expiry, false⟩
  if kdestroyOk then ⟨⟨false, none, false⟩, 1, false⟩
  else ⟨cancelled, 1, false⟩

/-- Modelled from the spec: the five-minute safety buffer of the
credential validity check.  The buffer and the methods `_is_ticket_valid`
and `ensure_valid` are exercised by tests/test_kerberos.py but are
missing from src/src/opendb_mcp/services/kerberos.py; this value follows
spec section 4.3 and end-to-end scenario D. -/
def TICKET_SAFETY_BUFFER : Int := 5 * 60

/-- Modelled from the spec: `_is_ticket_valid` is true only for an
initialized credential whose known expiry lies more than the safety
buffer in the future; an unknown expiry counts as invalid. -/
def is_ticket_valid (s : KerberosState) (now : Int) : Bool :=
  s.initialized &&
    match s.ticket_expiry with
    | none => false
    | some e => decide (now + TICKET_SAFETY_BUFFER < e)

/-- Modelled from the spec: `ensure_valid` is a no-op on a valid ticket
and otherwise runs the acquisition command exactly once, recording the
new expiry and scheduling a renewal.  Returns the new state and the
number of acquisition-command calls performed. -/
def ensure_valid (s : KerberosState) (now : Int) (newExpiry : Option Int) :
    KerberosState × Nat :=
  if is_ticket_valid s now then (s, 0)
  else (⟨true, newExpiry, true⟩, 1)

/-! ### Dialect connect methods (sqlite.py, mysql.py, hive.py) -/

/-- SqliteConnector state touched by connect: `_is_connected` and the
`_db` session handle. -/
structure SqliteConnectorState where
  connected : Bool
  db : Option Unit
deriving DecidableEq

/-- External outcome of the body of SqliteConnector.connect: the path
checks and aiosqlite.connect either succeed, fail before the session is
opened (missing file or bad configuration), or fail inside
aiosqlite.connect itself. -/
inductive SqliteOpenOutcome where
  | ok
  | preCheckFail
  | openFail
deriving DecidableEq

/-- SqliteConnector.connect: an already-connected connector returns at
once; otherwise open a session and mark connected, raising
ConnectionError on failure.  The second component counts calls of
aiosqlite.connect. -/
def sqlite_connect (s : SqliteConnectorState) (o : SqliteOpenOutcome) :
    SqliteConnectorState × Nat :=
  if s.connected then (s, 0)
  else
    match o with
    | .ok => (⟨true, some ()⟩, 1)
    | .preCheckFail => (s, 0)
    | .openFail => (s, 1)

/-- MySqlConnector state touched by connect: `_is_connected` and the
`_pool` handle. -/
structure MySqlConnectorState where
  connected : Bool
  pool : Option Unit
deriving DecidableEq

/-- External outcome of the body of MySqlConnector.connect: pool
creation and the SELECT 1 probe succeed, pool creation fails, or the
probe fails after the pool was created. -/
inductive MySqlOpenOutcome where
  | ok
  | poolFail
  | testFail
deriving DecidableEq

/-- MySqlConnector.connect: an already-connected connector returns at
once; otherwise create a pool, probe it, and mark connected.  The
second component counts calls of aiomysql.create_pool. -/
def mysql_connect (s : MySqlConnectorState) (o : MySqlOpenOutcome) :
    MySqlConnectorState × Nat :=
  if s.connected then (s, 0)
  else
    match o with
    | .ok => (⟨true, some ()⟩, 1)
    | .poolFail => (s, 1)
    | .testFail => (⟨false, some ()⟩, 1)

/-- HiveConnector state touched by connect: `_is_connected`, the
`_connection` handle and whether a KerberosAuth object is held. -/
structure HiveConnectorState where
  connected : Bool
  connection : Option Unit
  kerberos_auth : Bool
deriving DecidableEq

/-- External outcome of the body of HiveConnector.connect. -/
inductive HiveOpenOutcome where
  | ok
  | kinitFail
  | openFail
deriving DecidableEq

/-- Effects of one HiveConnector.connect call: backend sessions opened
by hive.connect and Kerberos initializations performed. -/
structure HiveConnectEffects where
  sessions : Nat
  kerberosInits : Nat
deriving DecidableEq

/-- HiveConnector.connect: an already-connected connector returns at
once; otherwise initialize Kerberos when the configuration asks for it,
then open the connection.  On failure the held credential is destroyed
and ConnectionError is raised. -/
def hive_connect (s : HiveConnectorState) (useKerberos : Bool)
    (o : HiveOpenOutcome) : HiveConnectorState × HiveConnectEffects :=
  if s.connected then (s, ⟨0, 0⟩)
  else
    let inits : Nat := if useKerberos then 1 else 0
    match o with
    | .ok => (⟨true, some (), useKerberos⟩, ⟨1, inits⟩)
    | .kinitFail => (⟨false, s.connection, useKerberos⟩, ⟨0, inits⟩)
    | .openFail => (⟨false, s.connection, useKerberos⟩, ⟨1, inits⟩)

/-! ### Fixtures for the concrete witnesses -/

/-- A connected connector without the read-only flag. -/
def sampleConnector : Connector := ⟨("alpha"), true, ⟨false, 1000, some 30, none⟩⟩

/-- A connected connector with the read-only flag set. -/
def readonlyConnector : Connector := ⟨("ro"), true, ⟨true, 1000, some 30, none⟩⟩

/-! ### Helper lemmas -/

/-- A list whose filtered version keeps its length satisfies the
predicate everywhere. -/
theorem length_filter_eq_iff {α : Type} (p : α → Bool) (l : List α) :
    (l.filter p).length = l.length ↔ ∀ a ∈ l, p a = true := by
  induction l with
  | nil => simp
  | cons a l ih =>
    by_cases ha : p a = true
    · simp [List.filter_cons, ha, ih]
    · have hle := List.length_filter_le p l
      simp only [List.filter_cons, ha]
      constructor
      · intro h
        rw [if_neg (by simp [ha])] at h
        simp only [List.length_cons] at h
        omega
      · intro h
        exact absurd (h a (by simp)) ha

/-- A statement whose first token is a write keyword also passes the
prefix test of `is_write_query`. -/
theorem firstToken_write (sql : String) :
    firstTokenIsWriteKeyword sql = true → is_write_query sql = true := by
  intro h
  unfold firstTokenIsWriteKeyword at h
  rw [List.any_eq_true] at h
  obtain ⟨k, hk, hbeq⟩ := h
  rw [beq_iff_eq] at hbeq
  unfold is_write_query
  rw [List.any_eq_true]
  refine ⟨k, hk, ?_⟩
  rw [List.isPrefixOf_iff_prefix, ← hbeq]
  exact List.takeWhile_prefix _

/-! ### C2 -/

/-- C2: in the SELECT result assembly, the truncation flag is set iff the
observed row count strictly exceeds the effective cap, the reported
row_count is the observed count (never the capped count), and the rows
actually returned never number more than the cap. -/
theorem c2_truncation (columns : List String) (fetched : List Row)
    (max_rows : Nat) :
    ((sqlite_select_result columns fetched max_rows).truncated = true ↔
      max_rows < fetched.length) ∧
    (sqlite_select_result columns fetched max_rows).row_count =
      fetched.length ∧
    (sqlite_select_result columns fetched max_rows).rows.length ≤ max_rows := by
  unfold sqlite_select_result format_rows
  by_cases he : fetched.isEmpty
  · have h0 : fetched = [] := List.isEmpty_iff.mp he
    subst h0
    simp
  · rw [if_neg he]
    refine ⟨by simp, rfl, ?_⟩
    have hrows : (if decide (max_rows < fetched.length) = true
        then List.take max_rows fetched else fetched).length ≤ max_rows := by
      by_cases hlt : max_rows < fetched.length
      · rw [if_pos (decide_eq_true hlt), List.length_take]
        omega
      · rw [if_neg (by simpa using hlt)]
        omega
    exact hrows

/-- Witness for C2: two fetched rows against a cap of one set the
truncation flag. -/
theorem c2_witness :
    (sqlite_select_result [("a")]
      [[(("a"), SqlValue.intVal 1)], [(("a"), SqlValue.intVal 2)]] 1).truncated
      = true :=
  ((c2_truncation [("a")]
      [[(("a"), SqlValue.intVal 1)], [(("a"), SqlValue.intVal 2)]] 1).1).mpr
    (by decide)

/-! ### C3 -/

/-- C3: `ensure_valid` performs no acquisition call when the credential
is initialized with remaining validity beyond the safety buffer, and
performs exactly one acquisition call when the credential is
uninitialized, the expiry is unknown, or the expiry is at most the
buffer away; with expiry three minutes out and the five-minute buffer
one acquisition runs, with expiry seven hours out none does. -/
theorem c3_ensure_valid (s : KerberosState) (now : Int)
    (newExpiry : Option Int) (rt : Bool) :
    (∀ e, s.initialized = true → s.ticket_expiry = some e →
      now + TICKET_SAFETY_BUFFER < e → (ensure_valid s now newExpiry).2 = 0) ∧
    (s.initialized = false → (ensure_valid s now newExpiry).2 = 1) ∧
    (s.ticket_expiry = none → (ensure_valid s now newExpiry).2 = 1) ∧
    (∀ e, s.ticket_expiry = some e → e ≤ now + TICKET_SAFETY_BUFFER →
      (ensure_valid s now newExpiry).2 = 1) ∧
    (ensure_valid ⟨true, some (now + 180), rt⟩ now newExpiry).2 = 1 ∧
    (ensure_valid ⟨true, some (now + 7 * 3600), rt⟩ now newExpiry).2 = 0 := by
  refine ⟨?_, ?_, ?_, ?_, ?_, ?_⟩
  · intro e hinit hexp hlt
    simp [ensure_valid, is_ticket_valid, hinit, hexp, hlt]
  · intro hinit
    simp [ensure_valid, is_ticket_valid, hinit]
  · intro hexp
    simp [ensure_valid, is_ticket_valid, hexp]
  · intro e hexp hle
    simp [ensure_valid, is_ticket_valid, hexp, Int.not_lt.mpr hle]
  · have hv : is_ticket_valid ⟨true, some (now + 180), rt⟩ now = false := by
      show (true && decide (now + TICKET_SAFETY_BUFFER < now + 180)) = false
      rw [decide_eq_false (by unfold TICKET_SAFETY_BUFFER; omega)]
      rfl
    unfold ensure_valid
    rw [if_neg (by rw [hv]; simp)]
  · have hv : is_ticket_valid ⟨true, some (now + 7 * 3600), rt⟩ now = true := by
      show (true && decide (now + TICKET_SAFETY_BUFFER < now + 7 * 3600)) = true
      rw [decide_eq_true (by unfold TICKET_SAFETY_BUFFER; omega)]
      rfl
    unfold ensure_valid
    rw [if_pos hv]

/-- Witness for C3 at concrete inputs: expiry 180 seconds past `now = 0`
forces one acquisition call, expiry seven hours out forces none. -/
theorem c3_witness :
    (ensure_valid ⟨true, some (0 + 180), false⟩ 0 (some 28800)).2 = 1 ∧
    (ensure_valid ⟨true, some (0 + 7 * 3600), false⟩ 0 (some 28800)).2 = 0 :=
  ⟨(c3_ensure_valid ⟨true, some (0 + 180), false⟩ 0 (some 28800) false).2.2.2.2.1,
   (c3_ensure_valid ⟨true, some (0 + 7 * 3600), false⟩ 0 (some 28800) false).2.2.2.2.2⟩

/-! ### C6 -/

/-- C6: a search-objects request for columns without a table fails with
a validation error before the connector manager is consulted (the
outcome is `validationError`, which the control flow produces before
any resolve, connect or query step). -/
theorem c6_column_requires_table (input : SearchObjectsInput)
    (hcol : input.object_type = some ObjectType.column)
    (htab : input.table = none) :
    search_objects input =
      .validationError ("Table name is required when searching for columns") := by
  unfold search_objects
  rw [if_pos ⟨hcol, by rw [htab]; rfl⟩]

/-- Witness for C6: a concrete column request without a table. -/
theorem c6_witness :
    search_objects ⟨none, some ObjectType.column, none, none, none, .markdown⟩ =
      .validationError ("Table name is required when searching for columns") :=
  c6_column_requires_table ⟨none, some ObjectType.column, none, none, none, .markdown⟩
    rfl rfl

/-! ### C7 -/

/-- C7: connect_all raises its aggregate failure exactly when at least
one source was configured and every attempt failed; one successful
source suffices for a normal return. -/
theorem c7_connect_all (attempts : List (String × Bool)) :
    ((connect_all attempts).2 = true ↔
      attempts ≠ [] ∧ ∀ p ∈ attempts, p.2 = false) ∧
    ((∃ p ∈ attempts, p.2 = true) → (connect_all attempts).2 = false) := by
  have hmain : (connect_all attempts).2 = true ↔
      attempts ≠ [] ∧ ∀ p ∈ attempts, p.2 = false := by
    unfold connect_all
    simp only [Bool.and_eq_true, Bool.not_eq_true', List.isEmpty_eq_false,
      beq_iff_eq, List.length_map, Ne, List.map_eq_nil_iff]
    rw [length_filter_eq_iff]
    constructor
    · rintro ⟨hne, hall⟩
      refine ⟨fun h => hne (by simp [h]), fun p hp => ?_⟩
      have := hall p hp
      simpa using this
    · rintro ⟨hne, hall⟩
      have hfil : attempts.filter (fun p => !p.2) = attempts :=
        List.filter_eq_self.mpr (fun p hp => by simp [hall p hp])
      refine ⟨by rw [hfil]; exact hne, fun p hp => by simp [hall p hp]⟩
  refine ⟨hmain, ?_⟩
  rintro ⟨p, hp, hpt⟩
  cases hres : (connect_all attempts).2 with
  | false => rfl
  | true =>
    have := (hmain.mp hres).2 p hp
    rw [hpt] at this
    exact absurd this (by simp)

/-- Witness for C7: with one failed and one successful source,
connect_all does not raise. -/
theorem c7_witness :
    (connect_all [(("a"), false), (("b"), true)]).2 = false :=
  (c7_connect_all [(("a"), false), (("b"), true)]).2
    ⟨(("b"), true), by simp, rfl⟩

/-! ### C8 -/

/-- C8 counterexample: when the destruction command fails on an
initialized credential, destroy does not raise but also does not move
the manager to the uninitialized state — the initialized flag stays set
and the expiry is not cleared, contradicting the claim. -/
theorem c8_counterexample :
    ¬ ((destroy ⟨true, some 100, true⟩ false).state.initialized = false ∧
       (destroy ⟨true, some 100, true⟩ false).state.ticket_expiry = none) := by
  decide

/-- C8 amended: destroy always cancels the pending renewal task, runs
the destruction command exactly once and never raises; on command
success it moves to the uninitialized state with the expiry cleared,
while on command failure the initialized flag and expiry are left
unchanged. -/
theorem c8_destroy (s : KerberosState) (ok : Bool) :
    (destroy s ok).state.refresh_task = false ∧
    (destroy s ok).kdestroy_calls = 1 ∧
    (destroy s ok).raised = false ∧
    (ok = true → (destroy s ok).state = ⟨false, none, false⟩) ∧
    (ok = false → (destroy s ok).state =
      ⟨s.initialized, s.ticket_expiry, false⟩) := by
  cases ok <;> simp [destroy]

/-- Witness for C8 at a concrete state: successful destruction clears
the flags. -/
theorem c8_witness :
    (destroy ⟨true, some 100, true⟩ true).state = ⟨false, none, false⟩ :=
  (c8_destroy ⟨true, some 100, true⟩ true).2.2.2.1 rfl

/-! ### C9 -/

/-- C9: on an already-connected connector, connect returns immediately
for the sqlite, mysql and hive dialects: the state is unchanged, no
backend session is created and no credential is initialized. -/
theorem c9_connect_idempotent (s1 : SqliteConnectorState)
    (s2 : MySqlConnectorState) (s3 : HiveConnectorState)
    (o1 : SqliteOpenOutcome) (o2 : MySqlOpenOutcome) (uk : Bool)
    (o3 : HiveOpenOutcome)
    (h1 : s1.connected = true) (h2 : s2.connected = true)
    (h3 : s3.connected = true) :
    sqlite_connect s1 o1 = (s1, 0) ∧
    mysql_connect s2 o2 = (s2, 0) ∧
    hive_connect s3 uk o3 = (s3, ⟨0, 0⟩) := by
  refine ⟨?_, ?_, ?_⟩ <;>
    simp [sqlite_connect, mysql_connect, hive_connect, h1, h2, h3]

/-- Witness for C9 at concrete connected states. -/
theorem c9_witness :
    sqlite_connect ⟨true, some ()⟩ .ok = (⟨true, some ()⟩, 0) ∧
    mysql_connect ⟨true, some ()⟩ .ok = (⟨true, some ()⟩, 0) ∧
    hive_connect ⟨true, some (), true⟩ true .ok =
      (⟨true, some (), true⟩, ⟨0, 0⟩) :=
  c9_connect_idempotent ⟨true, some ()⟩ ⟨true, some ()⟩ ⟨true, some (), true⟩
    .ok .ok true .ok rfl rfl rfl

/-! ### C10 -/

/-- C10: the effective per-call limits are resolved by truthiness — a
supplied max_rows of 0 (or None) falls back to the connector default,
and likewise for the timeout, so a caller cannot request a cap or
timeout of zero. -/
theorem c10_truthy_limits (c : Connector) (sql : String)
    (params : Option (List SqlValue)) (m t : Option Nat)
    (hc : c.connected = true)
    (hro : c.options.readonly = true → is_write_query sql = false) :
    execute c sql (some ⟨params, some 0, t⟩) =
      execute c sql (some ⟨params, none, t⟩) ∧
    execute c sql (some ⟨params, m, some 0⟩) =
      execute c sql (some ⟨params, m, none⟩) ∧
    execute c sql (some ⟨params, some 0, some 0⟩) =
      .delegated sql params c.options.max_rows c.options.query_timeout ∧
    execute c sql none =
      .delegated sql none c.options.max_rows c.options.query_timeout := by
  have hand : (c.options.readonly && is_write_query sql) = false := by
    cases hr : c.options.readonly
    · rfl
    · simpa using hro hr
  refine ⟨?_, ?_, ?_, ?_⟩ <;>
    simp [execute, hc, hand, pyOrNat, pyOrOptNat]

/-- Witness for C10 at a concrete connector and query. -/
theorem c10_witness :
    execute sampleConnector ("SELECT 1") (some ⟨none, some 0, some 0⟩) =
      .delegated ("SELECT 1") none 1000 (some 30) :=
  (c10_truthy_limits sampleConnector ("SELECT 1") none none none rfl
    (fun h => by simp [sampleConnector] at h)).2.2.1

/-! ### C1 -/

/-- C1 counterexample: the statement `UPDATES 1` has first token
`UPDATES`, which is none of the write keywords, yet a read-only
connector rejects it with the read-only violation, because the source
performs a prefix test on the whole normalized statement rather than a
first-token comparison. -/
theorem c1_counterexample :
    firstTokenIsWriteKeyword ("UPDATES 1") = false ∧
    execute readonlyConnector ("UPDATES 1") none =
      .readOnlyViolation ("ro") ("UPDATES 1") := by
  constructor
  · decide
  · decide

/-- C1 amended: on a connected read-only connector, a statement whose
trimmed upper-cased form starts with a write keyword is rejected with
the read-only violation before the dialect implementation is invoked —
in particular every statement whose first token is a write keyword is
rejected — and a statement whose normalized form starts with no write
keyword is never rejected by the read-only policy: it is delegated to
the dialect. -/
theorem c1_readonly (c : Connector) (sql : String)
    (options : Option ExecuteOptions)
    (hc : c.connected = true) (hro : c.options.readonly = true) :
    (is_write_query sql = true →
      execute c sql options = .readOnlyViolation c.source_id sql) ∧
    (firstTokenIsWriteKeyword sql = true →
      execute c sql options = .readOnlyViolation c.source_id sql) ∧
    (is_write_query sql = false →
      execute c sql options = .delegated sql
        ((options.getD ⟨none, none, none⟩).params)
        (pyOrNat ((options.getD ⟨none, none, none⟩).max_rows) c.options.max_rows)
        (pyOrOptNat ((options.getD ⟨none, none, none⟩).timeout)
          c.options.query_timeout)) := by
  refine ⟨?_, ?_, ?_⟩
  · intro hw
    simp [execute, hc, hro, hw]
  · intro hft
    simp [execute, hc, hro, firstToken_write sql hft]
  · intro hw
    simp [execute, hc, hro, hw]

/-- Witness for C1 at a concrete rejected statement: `DROP TABLE t` has
first token `DROP` and is rejected without delegation. -/
theorem c1_witness :
    execute readonlyConnector ("DROP TABLE t") none =
      .readOnlyViolation ("ro") ("DROP TABLE t") :=
  (c1_readonly readonlyConnector ("DROP TABLE t") none rfl rfl).2.1 (by decide)

/-! ### C5 -/

/-- C5 counterexample: a registry with no configured sources does not
have more than one source, yet resolve with no id still fails with the
ambiguous-source error, so the claimed exact characterisation fails. -/
theorem c5_counterexample :
    ¬ (1 < (ConnectorManager.mk []).connectors.length) ∧
    (ConnectorManager.mk []).resolve none = .ambiguousSource :=
  ⟨by decide, rfl⟩

/-- C5 amended: resolve with an explicit non-empty id that matches no
source fails with the unknown-source error; resolve with no id fails
with the ambiguous-source error exactly when the registry does not hold
exactly one source and no source is named default (so also when zero
sources are configured); with exactly one source configured, resolve
with no id returns that connector. -/
theorem c5_resolve (m : ConnectorManager) (sid : String) :
    (sid ≠ ("") → m.get sid = none →
      m.resolve (some sid) = .unknownSource) ∧
    (m.resolve none = .ambiguousSource ↔
      (m.connectors.length ≠ 1 ∧ m.get ("default") = none)) ∧
    (∀ i c, m.connectors = [(i, c)] → m.resolve none = .resolved c) := by
  refine ⟨?_, ?_, ?_⟩
  · intro hne hmiss
    unfold ConnectorManager.resolve
    rw [if_pos (by simp [truthyStr, hne])]
    simp only [Option.getD_some]
    rw [hmiss]
  · unfold ConnectorManager.resolve
    rw [if_neg (by simp [truthyStr])]
    unfold ConnectorManager.get_default ConnectorManager.get
    by_cases hlen : m.connectors.length = 1
    · obtain ⟨a, ha⟩ := List.length_eq_one.mp hlen
      rw [if_pos hlen, ha]
      simp [ha]
    · rw [if_neg hlen]
      cases hdef : List.lookup ("default") m.connectors with
      | none => simp [hlen]
      | some c => simp [hlen]
  · intro i c hconn
    unfold ConnectorManager.resolve
    rw [if_neg (by simp [truthyStr])]
    unfold ConnectorManager.get_default
    rw [hconn]
    rfl

/-- Witness for C5: a singleton registry resolves the missing id to its
sole connector. -/
theorem c5_witness :
    (ConnectorManager.mk [(("alpha"), sampleConnector)]).resolve none =
      .resolved sampleConnector :=
  (c5_resolve ⟨[(("alpha"), sampleConnector)]⟩ ("zzz")).2.2
    ("alpha") sampleConnector rfl

/-! ### Character and digit lemmas for C4 -/

/-- Upper-casing fixes every whitespace character. -/
theorem ws_toUpper (c : Char) (h : c.isWhitespace = true) : c.toUpper = c := by
  have h4 : ((c = (' ') ∨ c = ('\t')) ∨ c = ('\x0d')) ∨ c = ('\n') := by
    simpa [Char.isWhitespace] using h
  rcases h4 with ((h | h) | h) | h <;> subst h <;> decide

/-- Every character produced by Nat.digitChar is non-whitespace. -/
theorem digitChar_not_ws (m : Nat) : (Nat.digitChar m).isWhitespace = false := by
  unfold Nat.digitChar
  simp [apply_ite Char.isWhitespace]

/-- Characters of Nat.toDigitsCore output are non-whitespace when the
accumulator characters are. -/
theorem toDigitsCore_not_ws (b : Nat) :
    ∀ (fuel n : Nat) (ds : List Char),
      (∀ c ∈ ds, c.isWhitespace = false) →
      ∀ c ∈ Nat.toDigitsCore b fuel n ds, c.isWhitespace = false := by
  intro fuel
  induction fuel with
  | zero =>
    intro n ds hds
    simpa [Nat.toDigitsCore] using hds
  | succ fuel ih =>
    intro n ds hds c hc
    simp only [Nat.toDigitsCore] at hc
    by_cases h0 : n / b = 0
    · rw [if_pos h0] at hc
      rcases List.mem_cons.mp hc with h | h
      · subst h; exact digitChar_not_ws _
      · exact hds c h
    · rw [if_neg h0] at hc
      refine ih (n / b) (Nat.digitChar (n % b) :: ds) ?_ c hc
      intro d hd
      rcases List.mem_cons.mp hd with h | h
      · subst h; exact digitChar_not_ws _
      · exact hds d h

/-- Nat.toDigitsCore output is non-empty given fuel or a non-empty
accumulator. -/
theorem toDigitsCore_ne_nil (b : Nat) :
    ∀ (fuel n : Nat) (ds : List Char), fuel ≠ 0 ∨ ds ≠ [] →
      Nat.toDigitsCore b fuel n ds ≠ [] := by
  intro fuel
  induction fuel with
  | zero =>
    intro n ds h
    rcases h with h | h
    · exact absurd rfl h
    · simpa [Nat.toDigitsCore] using h
  | succ fuel ih =>
    intro n ds _
    simp only [Nat.toDigitsCore]
    by_cases h0 : n / b = 0
    · rw [if_pos h0]; simp
    · rw [if_neg h0]
      exact ih (n / b) _ (Or.inr (by simp))

/-- The decimal rendering of a natural number, as a character list. -/
theorem toString_nat_data (n : Nat) :
    (toString n).data = Nat.toDigitsCore 10 (n + 1) n [] := rfl

/-- The decimal rendering of a natural number is never empty. -/
theorem toString_nat_ne_nil (n : Nat) : (toString n).data ≠ [] := by
  rw [toString_nat_data]
  exact toDigitsCore_ne_nil 10 (n + 1) n [] (Or.inl (Nat.succ_ne_zero n))

/-- The decimal rendering of a natural number has no whitespace. -/
theorem toString_nat_not_ws (n : Nat) :
    ∀ c ∈ (toString n).data, c.isWhitespace = false := by
  rw [toString_nat_data]
  exact toDigitsCore_not_ws 10 (n + 1) n [] (by simp)

/-! ### Strip lemmas for C4 -/

/-- A list whose last character is non-whitespace survives stripEnd. -/
theorem stripEnd_eq_self (l : List Char) (d : Char) (r : List Char)
    (hrev : l.reverse = d :: r) (hd : d.isWhitespace = false) :
    stripEnd l = l := by
  unfold stripEnd
  rw [hrev, List.dropWhile_cons_of_neg (by simp [hd]), ← hrev,
    List.reverse_reverse]

/-- A list whose first and last characters are non-whitespace survives
pyStrip. -/
theorem pyStrip_eq_self (l : List Char) (c : Char) (t : List Char)
    (hl : l = c :: t) (hc : c.isWhitespace = false)
    (d : Char) (r : List Char) (hrev : l.reverse = d :: r)
    (hd : d.isWhitespace = false) :
    pyStrip l = l := by
  unfold pyStrip
  rw [hl, List.dropWhile_cons_of_neg (by simp [hc]), ← hl]
  exact stripEnd_eq_self l d r hrev hd

/-- pyUpper distributes over append. -/
theorem pyUpper_append (a b : List Char) :
    pyUpper (a ++ b) = pyUpper a ++ pyUpper b :=
  List.map_append _ a b

/-! ### The appended statement keeps its LIMIT clause (C4 core) -/

/-- When the normalized statement is a SELECT, appending the LIMIT
clause produces a statement whose own normalization contains a
bounding clause, so a second wrap leaves it unchanged. -/
theorem appended_has_bound (sql : String) (max_rows : Nat)
    (hs : List.isPrefixOf (("SELECT").toList) (normalizedSql sql) = true) :
    hasBoundingClause (normalizedSql
      (⟨pyStrip sql.toList⟩ ++ (" LIMIT ") ++ toString max_rows)) = true := by
  have hpre : ∃ r, ("SELECT").toList ++ r = pyUpper (pyStrip sql.toList) :=
    List.isPrefixOf_iff_prefix.mp hs
  obtain ⟨r, hr⟩ := hpre
  -- The stripped statement starts with a non-whitespace character.
  obtain ⟨c, t, hct⟩ : ∃ c t, pyStrip sql.toList = c :: t := by
    cases hL : pyStrip sql.toList with
    | nil =>
      rw [hL] at hr
      simp [pyUpper] at hr
    | cons c t => exact ⟨c, t, rfl⟩
  have hcS : c.toUpper = ('S') := by
    rw [hct] at hr
    have : ('S') :: (("ELECT").toList ++ r) = c.toUpper :: pyUpper t := hr
    exact (List.cons.injEq _ _ _ _ ▸ this).1.symm
  have hcws : c.isWhitespace = false := by
    cases hw : c.isWhitespace with
    | false => rfl
    | true =>
      have hcc : c = ('S') := by rw [← ws_toUpper c hw, hcS]
      rw [hcc] at hw
      exact absurd hw (by decide)
  -- The appended digits end with a non-whitespace character.
  obtain ⟨d, r0, hrev0⟩ : ∃ d r0, (toString max_rows).data.reverse = d :: r0 :=
    List.exists_cons_of_ne_nil
      (by simpa using toString_nat_ne_nil max_rows)
  have hdws : d.isWhitespace = false := by
    refine toString_nat_not_ws max_rows d ?_
    rw [← List.mem_reverse, hrev0]
    exact List.mem_cons_self d r0
  -- The full character list of the appended statement.
  set L := pyStrip sql.toList with hLdef
  set D := (toString max_rows).data with hDdef
  have hX : ((⟨L⟩ : String) ++ (" LIMIT ") ++ toString max_rows).toList =
      L ++ (" LIMIT ").toList ++ D := rfl
  have hstrip : pyStrip (L ++ (" LIMIT ").toList ++ D) =
      L ++ (" LIMIT ").toList ++ D := by
    refine pyStrip_eq_self _ c (t ++ (" LIMIT ").toList ++ D) ?_ hcws
      d (r0 ++ ((" LIMIT ").toList.reverse ++ L.reverse)) ?_ hdws
    · rw [hct]; simp
    · rw [List.reverse_append, List.reverse_append, hrev0]
      simp
  have hupper : pyUpper (L ++ (" LIMIT ").toList ++ D) =
      pyUpper L ++ (" LIMIT ").toList ++ pyUpper D := by
    rw [pyUpper_append, pyUpper_append]
    have : pyUpper ((" LIMIT ").toList) = (" LIMIT ").toList := by decide
    rw [this]
  have hinf : ((" LIMIT ").toList <:+: pyUpper (L ++ (" LIMIT ").toList ++ D)) := by
    rw [hupper]
    exact ⟨pyUpper L, pyUpper D, by simp⟩
  unfold normalizedSql
  rw [hX, hstrip]
  unfold hasBoundingClause
  rw [decide_eq_true hinf]
  rfl

/-! ### C4 -/

/-- C4: the row-limit wrapping function is idempotent — a statement
already carrying a bounding clause is returned unchanged, a non-SELECT
statement is returned unchanged, a plain SELECT gets exactly one LIMIT
clause with the requested cap appended (to the stripped statement), and
wrapping twice with the same cap equals wrapping once. -/
theorem c4_wrap_idempotent (sql : String) (max_rows : Nat) :
    (hasBoundingClause (normalizedSql sql) = true →
      wrap_with_limit sql max_rows = sql) ∧
    (List.isPrefixOf (("SELECT").toList) (normalizedSql sql) = false →
      wrap_with_limit sql max_rows = sql) ∧
    (hasBoundingClause (normalizedSql sql) = false →
      List.isPrefixOf (("SELECT").toList) (normalizedSql sql) = true →
      wrap_with_limit sql max_rows =
        ⟨pyStrip sql.toList⟩ ++ (" LIMIT ") ++ toString max_rows) ∧
    wrap_with_limit (wrap_with_limit sql max_rows) max_rows =
      wrap_with_limit sql max_rows := by
  have case_bound : hasBoundingClause (normalizedSql sql) = true →
      wrap_with_limit sql max_rows = sql := by
    intro hb
    unfold wrap_with_limit
    rw [if_pos hb]
  have case_not_select :
      List.isPrefixOf (("SELECT").toList) (normalizedSql sql) = false →
      wrap_with_limit sql max_rows = sql := by
    intro hs
    unfold wrap_with_limit
    by_cases hb : hasBoundingClause (normalizedSql sql)
    · rw [if_pos hb]
    · rw [if_neg hb, if_pos (by rw [hs]; rfl)]
  have case_append : hasBoundingClause (normalizedSql sql) = false →
      List.isPrefixOf (("SELECT").toList) (normalizedSql sql) = true →
      wrap_with_limit sql max_rows =
        ⟨pyStrip sql.toList⟩ ++ (" LIMIT ") ++ toString max_rows := by
    intro hb hs
    unfold wrap_with_limit
    rw [if_neg (by rw [hb]; exact Bool.false_ne_true), if_neg (by rw [hs]; simp)]
  refine ⟨case_bound, case_not_select, case_append, ?_⟩
  by_cases hb : hasBoundingClause (normalizedSql sql)
  · rw [case_bound hb]
    exact case_bound hb
  · cases hsel : List.isPrefixOf (("SELECT").toList) (normalizedSql sql) with
    | false =>
      rw [case_not_select hsel]
      exact case_not_select hsel
    | true =>
      rw [case_append (by simpa using hb) hsel]
      have hbound2 := appended_has_bound sql max_rows hsel
      simp only [wrap_with_limit, hbound2, if_true]

/-- Witness for C4 at a concrete SELECT statement: wrapping twice equals
wrapping once, and the single wrap appends one LIMIT clause. -/
theorem c4_witness :
    wrap_with_limit (wrap_with_limit ("SELECT * FROM t") 5) 5 =
      wrap_with_limit ("SELECT * FROM t") 5 ∧
    wrap_with_limit ("SELECT * FROM t") 5 = ("SELECT * FROM t LIMIT 5") :=
  ⟨(c4_wrap_idempotent ("SELECT * FROM t") 5).2.2.2, by decide⟩

end OpenDB
